import Mathlib

/-!
Verification of the Subscription Gate & Usage Ledger of the EcoPredict AI
backend, shallowly embedded from the JavaScript source:

- `src/functions/index.js` : the Express server (`checkSubscription`,
  `/runAnalysis` route) and a near-duplicate Google-Cloud-Function copy of the
  same logic (`checkSubscription`, `runAnalysis_function`).
- `src/webhook_handler.js` : the PayPal webhook handler
  (`paypalWebhookHandler`).

Firestore is modelled as a per-user pair of documents (subscription status and
usage counter), with merge-writes made explicit.  Fields that may be absent in
a stored document are modelled as `Option`; JavaScript truthiness and the
semantics of comparing `undefined` with a number are modelled where the source
relies on them.  Server timestamps are modelled by a `now : Nat` parameter.
Storage faults (a read or write of the store throwing) are modelled by a
`Faults` record saying which operations would throw if attempted.
-/

namespace EcoPredict

/-- The subscription-status document
`/artifacts/{appId}/users/{userId}/subscriptions/status`.  Every field may be
absent (`none`).  Timestamps are modelled as `Nat`. -/
structure StatusDoc where
  tier : Option String
  status : Option String
  paypal_id : Option String
  expires_at : Option Nat
  updated_at : Option Nat
deriving DecidableEq, Repr

/-- The usage-counter document
`/artifacts/{appId}/users/{userId}/usage/analysis_count`.  `count` may be
absent even when the document exists (in JavaScript the read then yields
`undefined`). -/
structure UsageDoc where
  count : Option Int
  last_use : Option Nat
  last_reset : Option Nat
deriving DecidableEq, Repr

/-- The two documents of one user; `none` = the document does not exist. -/
structure Store where
  statusDoc : Option StatusDoc
  usageDoc : Option UsageDoc
deriving DecidableEq, Repr

/-- The value returned by `checkSubscription`:
`{ canProceed: boolean, message: string }`. -/
structure Decision where
  canProceed : Bool
  message : String
deriving DecidableEq, Repr

/-- Which store operations of one `checkSubscription` run would throw. -/
structure Faults where
  readStatus : Bool
  readUsage : Bool
  writeUsage : Bool
deriving DecidableEq, Repr

/-- A fault-free run. -/
def noFaults : Faults := ⟨false, false, false⟩

/-- `const FREE_TIER_LIMIT = 5` (both copies of `checkSubscription`). -/
def FREE_TIER_LIMIT : Int := 5

/-- Default used when the status document is absent:
`statusSnap.data() || { tier: 'free', status: 'unknown' }`. -/
def statusDefault : StatusDoc :=
  { tier := some "free", status := some "unknown",
    paypal_id := none, expires_at := none, updated_at := none }

/-- Default used by the Express copy when the usage document is absent:
`usageSnap.data() || { count: 0 }`. -/
def expressUsageDefault : UsageDoc :=
  { count := some 0, last_use := none, last_reset := none }

/-- Default used by the GCF copy when the usage document is absent:
`usageSnap.data() || { count: 0, last_reset: new Date(0) }`. -/
def gcfUsageDefault : UsageDoc :=
  { count := some 0, last_use := none, last_reset := some 0 }

/-- Template literal
`` `Free tier usage: ${newCount}/${FREE_TIER_LIMIT} analyses used.` ``. -/
def freeTierUsageMsg (newCount : Int) : String :=
  "Free tier usage: " ++ toString newCount ++ "/" ++ toString FREE_TIER_LIMIT
    ++ " analyses used."

/-- Template literal
`` `Free tier limit of ${FREE_TIER_LIMIT} analyses exceeded. Please upgrade to Pro.` ``. -/
def limitExceededMsg : String :=
  "Free tier limit of " ++ toString FREE_TIER_LIMIT
    ++ " analyses exceeded. Please upgrade to Pro."

/-- The message of the `catch` branch of `checkSubscription`. -/
def internalErrorMsg : String := "Internal server error during authorization check."

/-- The shared body of both copies of `checkSubscription` (the part inside the
`try`), parameterised by the default object for an absent usage document (the
only textual difference between the two copies' bodies).  Returns the decision
and the user's store after the run.

Faithfulness notes, keyed to `src/functions/index.js` lines 61-99 / 258-297:
- the two reads happen first (`Promise.all`); if either throws, the `catch`
  returns the internal-error deny and nothing was written;
- `currentCount` is `usageData.count`; when the usage document exists without
  a `count` field this is `undefined`, and in JavaScript
  `undefined < FREE_TIER_LIMIT` is `false`, so control reaches the
  limit-exceeded branch — hence the `none` case below;
- the write `freeTierUsageRef.set({count, last_use}, {merge: true})` is a
  merge: it updates `count` and `last_use` of the stored document (creating it
  if absent) and leaves other stored fields untouched; if the write throws,
  the `catch` returns the internal-error deny. -/
def checkSubscriptionBody (usageDefault : UsageDoc) (st : Store) (now : Nat)
    (f : Faults) : Decision × Store :=
  if f.readStatus || f.readUsage then
    (⟨false, internalErrorMsg⟩, st)
  else
    let statusData := st.statusDoc.getD statusDefault
    let currentCount := (st.usageDoc.getD usageDefault).count
    if statusData.tier = some "pro" ∧ statusData.status = some "active" then
      (⟨true, "Pro subscription active."⟩, st)
    else
      match currentCount with
      | some n =>
        if n < FREE_TIER_LIMIT then
          if f.writeUsage then
            (⟨false, internalErrorMsg⟩, st)
          else
            let newCount := n + 1
            let stored := st.usageDoc.getD ⟨none, none, none⟩
            (⟨true, freeTierUsageMsg newCount⟩,
             { st with
               usageDoc := some { stored with count := some newCount, last_use := some now } })
        else
          (⟨false, limitExceededMsg⟩, st)
      | none =>
        (⟨false, limitExceededMsg⟩, st)

/-- JavaScript truthiness of the `userId` argument: `!userId` is `true` for
`undefined`/`null` (modelled `none`) and for the empty string. -/
def userIdFalsy : Option String → Bool
  | none => true
  | some s => s = ""

/-- The Express copy of `checkSubscription` (index.js lines 51-100), viewed on
one user's documents: the missing-id guard, then the shared body. -/
def checkSubscription (userId : Option String) (st : Store) (now : Nat)
    (f : Faults) : Decision × Store :=
  if userIdFalsy userId then
    (⟨false, "User ID is required for authorization."⟩, st)
  else
    checkSubscriptionBody expressUsageDefault st now f

/-- The effective count `checkSubscription` reads for a user (Express default
for an absent document). -/
def effectiveCount (st : Store) : Option Int :=
  (st.usageDoc.getD expressUsageDefault).count

/-- Whether the pro-tier check of `checkSubscription` passes for a user. -/
def isProActive (st : Store) : Bool :=
  (st.statusDoc.getD statusDefault).tier = some "pro"
    ∧ (st.statusDoc.getD statusDefault).status = some "active"

/-! ### The two deployment copies of `checkSubscription`, over the whole store

The GCF copy (index.js lines 253-297) has no missing-id guard, so with an
absent `userId` it still builds the document paths; a JavaScript template
literal renders `undefined` as the segment `"undefined"`.  To compare the two
copies we model the store as an association list from the user path segment to
that user's documents. -/

/-- Look up a key in an association list. -/
def lookupAssoc {α : Type} (db : List (String × α)) (k : String) : Option α :=
  match db with
  | [] => none
  | (k', v) :: rest => if k' = k then some v else lookupAssoc rest k

/-- Replace (or insert) the value at a key in an association list. -/
def setAssoc {α : Type} (db : List (String × α)) (k : String) (v : α) :
    List (String × α) :=
  match db with
  | [] => [(k, v)]
  | (k', v') :: rest =>
    if k' = k then (k, v) :: rest else (k', v') :: setAssoc rest k v

/-- The whole quota store, keyed by the user path segment. -/
abbrev GateDB := List (String × Store)

/-- The path segment the source interpolates for `userId`: JavaScript renders
`undefined` in a template literal as the string `"undefined"`. -/
def pathSeg : Option String → String
  | none => "undefined"
  | some s => s

/-- Result of one `checkSubscription` invocation viewed from the caller:
either a decision together with the store after the run, or an exception that
escapes `checkSubscription` (the store client's `db.doc` rejects a path with
an empty segment, and in both copies the `db.doc` calls sit outside the
`try`). -/
inductive GateOutcome where
  | ok (dec : Decision) (db : GateDB)
  | thrown
deriving DecidableEq, Repr

/-- The Express-server copy of `checkSubscription` (index.js lines 51-100)
over the whole store.  The `!userId` guard fires before any path is built, so
this copy never throws. -/
def checkSubscription_server (userId : Option String) (db : GateDB) (now : Nat)
    (f : Faults) : GateOutcome :=
  if userIdFalsy userId then
    .ok ⟨false, "User ID is required for authorization."⟩ db
  else
    let k := pathSeg userId
    let r := checkSubscriptionBody expressUsageDefault ((lookupAssoc db k).getD ⟨none, none⟩) now f
    .ok r.1 (setAssoc db k r.2)

/-- The Google-Cloud-Function copy of `checkSubscription` (index.js lines
253-297) over the whole store.  There is no missing-id guard: an absent
`userId` is interpolated as the path segment `"undefined"` and evaluated
normally, and an empty-string `userId` makes `db.doc` throw (empty path
segment) outside the `try`. -/
def checkSubscription_gcf (userId : Option String) (db : GateDB) (now : Nat)
    (f : Faults) : GateOutcome :=
  if userId = some "" then
    .thrown
  else
    let k := pathSeg userId
    let r := checkSubscriptionBody gcfUsageDefault ((lookupAssoc db k).getD ⟨none, none⟩) now f
    .ok r.1 (setAssoc db k r.2)

/-! ### The `/runAnalysis` orchestrator (index.js lines 159-200) -/

/-- The HTTP response of the `/runAnalysis` route, by status code. -/
inductive RunResponse where
  | badRequest
  | unauthorized
  | forbidden (error : String)
  | serverError
  | okResp (message : String) (result : String)
deriving DecidableEq, Repr

/-- The `/runAnalysis` route of the Express server, on one user's documents.
`hasToken`/`hasData` model the truthiness of the bearer token and of
`req.body.data`; `auth` models `verifyIdToken` (`none` = the verification
throws, `some uid` = the decoded UID); `oracle` models `runGeminiAnalysis`
(`none` = it throws, `some r` = the parsed result).  Returns the response and
the user's store after the request. -/
def runAnalysis (hasToken hasData : Bool) (auth : Option String) (st : Store)
    (now : Nat) (f : Faults) (oracle : Option String) : RunResponse × Store :=
  if !hasToken || !hasData then
    (.badRequest, st)
  else
    match auth with
    | none => (.unauthorized, st)
    | some uid =>
      let r := checkSubscription (some uid) st now f
      if r.1.canProceed = false then
        (.forbidden r.1.message, r.2)
      else
        match oracle with
        | some result => (.okResp r.1.message result, r.2)
        | none => (.serverError, r.2)

/-! ### The PayPal webhook handler (`src/webhook_handler.js`) -/

/-- `resource.subscriber` in the webhook payload. -/
structure Subscriber where
  custom_id : Option String
deriving DecidableEq, Repr

/-- `resource` in the webhook payload. -/
structure Resource where
  id : Option String
  custom_id : Option String
  subscriber : Option Subscriber
deriving DecidableEq, Repr

/-- The webhook request body `{ event_type, resource }`. -/
structure WebhookBody where
  event_type : Option String
  resource : Option Resource
deriving DecidableEq, Repr

/-- JavaScript truthiness of an optional string value (an absent field is
`undefined`, and `""` is falsy). -/
def truthyStr : Option String → Bool
  | none => false
  | some s => s ≠ ""

/-- UID extraction of webhook_handler.js lines 50-59:
`if (resource && resource.subscriber && resource.subscriber.custom_id)` then
the nested id, `else if (resource && resource.custom_id)` then the flat id;
otherwise `userId` stays `null`.  Truthiness means an empty-string id does not
count. -/
def extractUserId (r : Option Resource) : Option String :=
  match r with
  | none => none
  | some res =>
    if truthyStr (res.subscriber.bind Subscriber.custom_id) then
      res.subscriber.bind Subscriber.custom_id
    else if truthyStr res.custom_id then
      res.custom_id
    else
      none

/-- `eventType.toLowerCase()` of webhook_handler.js line 89 (the event-type
strings are ASCII, where JavaScript `toLowerCase` is the per-character
lowercase map). -/
def strToLower (s : String) : String := ⟨s.data.map Char.toLower⟩

/-- The HTTP response of the webhook handler, by status code. -/
inductive WebhookResult where
  | methodNotAllowed
  | invalidStructure
  | missingUserId
  | noContent
  | dbFailed
deriving DecidableEq, Repr

/-- The subscription-status side of the store, keyed by user. -/
abbrev StatusDB := List (String × StatusDoc)

/-- A status document with every field absent (the merge base when the
document does not yet exist). -/
def emptyStatusDoc : StatusDoc := ⟨none, none, none, none, none⟩

/-- `exports.paypalWebhookHandler` of `src/webhook_handler.js`.  `writeFault`
models the status-document merge-write throwing (caught and mapped to 500).
On `BILLING.SUBSCRIPTION.ACTIVATED` the source also sends
`paypal_id: resource.id`; when `resource.id` is absent that value is
`undefined`, which the store client rejects, so the write throws and the
`catch` answers 500 — modelled by the `none => dbFailed` case. -/
def paypalWebhookHandler (method : String) (body : WebhookBody) (db : StatusDB)
    (now : Nat) (writeFault : Bool) : WebhookResult × StatusDB :=
  if method ≠ "POST" then
    (.methodNotAllowed, db)
  else if !truthyStr body.event_type then
    (.invalidStructure, db)
  else
    let eventType := body.event_type.getD ""
    match extractUserId body.resource with
    | none => (.missingUserId, db)
    | some userId =>
      if eventType = "BILLING.SUBSCRIPTION.ACTIVATED" then
        match body.resource.bind Resource.id with
        | none => (.dbFailed, db)
        | some pid =>
          if writeFault then (.dbFailed, db)
          else
            let base := (lookupAssoc db userId).getD emptyStatusDoc
            (.noContent, setAssoc db userId
              { base with tier := some "pro", status := some "active",
                          paypal_id := some pid, expires_at := some now,
                          updated_at := some now })
      else if eventType = "BILLING.SUBSCRIPTION.CANCELLED"
          ∨ eventType = "BILLING.SUBSCRIPTION.EXPIRED" then
        if writeFault then (.dbFailed, db)
        else
          let base := (lookupAssoc db userId).getD emptyStatusDoc
          (.noContent, setAssoc db userId
            { base with tier := some "free", status := some (strToLower eventType),
                        updated_at := some now })
      else
        (.noContent, db)

/-! ### Helper lemmas about the gate body -/

/-- A non-empty user id passes the `!userId` guard of the Express copy. -/
theorem checkSubscription_some_ne (u : String) (st : Store) (now : Nat)
    (f : Faults) (hu : u ≠ "") :
    checkSubscription (some u) st now f =
      checkSubscriptionBody expressUsageDefault st now f := by
  simp [checkSubscription, userIdFalsy, hu]

/-- The fault-free free-tier branch: admit and merge-write the incremented
count. -/
theorem body_free_tier (st : Store) (n : Int) (now : Nat)
    (hpro : isProActive st = false) (hcount : effectiveCount st = some n)
    (hlt : n < FREE_TIER_LIMIT) :
    checkSubscriptionBody expressUsageDefault st now noFaults =
      (⟨true, freeTierUsageMsg (n + 1)⟩,
       { st with usageDoc := some { st.usageDoc.getD ⟨none, none, none⟩ with
                                    count := some (n + 1), last_use := some now } }) := by
  have hpro' : ¬((st.statusDoc.getD statusDefault).tier = some "pro"
      ∧ (st.statusDoc.getD statusDefault).status = some "active") := by
    simpa [isProActive] using hpro
  have hcount' : (st.usageDoc.getD expressUsageDefault).count = some n := hcount
  simp only [checkSubscriptionBody, noFaults, Bool.or_self, Bool.false_eq_true,
    if_false, hcount', if_neg hpro', if_pos hlt]

/-- The pro branch: for any usage-document default and any faults whose reads
succeed, an active pro status admits and writes nothing. -/
theorem body_pro (d : UsageDoc) (st : Store) (now : Nat) (f : Faults)
    (hr : f.readStatus = false) (hru : f.readUsage = false)
    (hpro : isProActive st = true) :
    checkSubscriptionBody d st now f = (⟨true, "Pro subscription active."⟩, st) := by
  have hpro' : (st.statusDoc.getD statusDefault).tier = some "pro"
      ∧ (st.statusDoc.getD statusDefault).status = some "active" := by
    simpa [isProActive] using hpro
  simp only [checkSubscriptionBody, hr, hru, Bool.or_self, Bool.false_eq_true,
    if_false, if_pos hpro']

/-- The fault-free limit branch: a numeric count at or above the limit denies
and writes nothing. -/
theorem body_limit (d : UsageDoc) (st : Store) (n : Int) (now : Nat)
    (hpro : isProActive st = false)
    (hcount : (st.usageDoc.getD d).count = some n) (hge : FREE_TIER_LIMIT ≤ n) :
    checkSubscriptionBody d st now noFaults = (⟨false, limitExceededMsg⟩, st) := by
  have hpro' : ¬((st.statusDoc.getD statusDefault).tier = some "pro"
      ∧ (st.statusDoc.getD statusDefault).status = some "active") := by
    simpa [isProActive] using hpro
  have hlt : ¬(n < FREE_TIER_LIMIT) := not_lt.mpr hge
  simp only [checkSubscriptionBody, noFaults, Bool.or_self, Bool.false_eq_true,
    if_false, hcount, if_neg hpro', if_neg hlt]

/-- The fault-free missing-`count` branch: an existing usage document without
a numeric `count` denies (in JavaScript `undefined < 5` is `false`) and writes
nothing. -/
theorem body_count_absent (d : UsageDoc) (st : Store) (now : Nat)
    (hpro : isProActive st = false)
    (hcount : (st.usageDoc.getD d).count = none) :
    checkSubscriptionBody d st now noFaults = (⟨false, limitExceededMsg⟩, st) := by
  have hpro' : ¬((st.statusDoc.getD statusDefault).tier = some "pro"
      ∧ (st.statusDoc.getD statusDefault).status = some "active") := by
    simpa [isProActive] using hpro
  simp only [checkSubscriptionBody, noFaults, Bool.or_self, Bool.false_eq_true,
    if_false, hcount, if_neg hpro']

/-- The template-literal admit message, with the limit constant folded in. -/
theorem freeTierUsageMsg_eq (n : Int) :
    freeTierUsageMsg n = "Free tier usage: " ++ toString n ++ "/5 analyses used." := by
  have h5 : toString FREE_TIER_LIMIT = "5" := rfl
  simp [freeTierUsageMsg, h5, String.append_assoc]

/-- The deny message of the limit branch, with the limit constant folded in. -/
theorem limitExceededMsg_eq :
    limitExceededMsg = "Free tier limit of 5 analyses exceeded. Please upgrade to Pro." := rfl

/-- Whether a list occurs as a contiguous sublist of another. -/
def hasSubList (pat : List Char) : List Char → Bool
  | [] => List.isPrefixOf pat []
  | c :: rest => List.isPrefixOf pat (c :: rest) || hasSubList pat rest

/-- Whether `pat` occurs as a substring of `s`. -/
def strHasSub (s pat : String) : Bool := hasSubList pat.data s.data

/-- Whether a `checkSubscription` run on `st` reaches the usage merge-write
(both reads succeed, the pro check fails, and the count is numeric and under
the limit). -/
def writeAttempted (st : Store) (f : Faults) : Bool :=
  !(f.readStatus || f.readUsage) && !(isProActive st) &&
    (match effectiveCount st with
     | some n => decide (n < FREE_TIER_LIMIT)
     | none => false)

/-- Whether a `checkSubscription` run on `st` under faults `f` has a store
operation actually throw: the reads always run, the write only when the
free-tier branch attempts it. -/
def faultRaised (st : Store) (f : Faults) : Bool :=
  f.readStatus || f.readUsage || (f.writeUsage && writeAttempted st f)

/-! ### The claims -/

/-- C1: for every subject whose `SubscriptionStatus` is not (tier = pro and
status = active) and whose `UsageCounter` count is less than 5, `evaluate`
admits with reason "Free tier usage: {newCount}/5 analyses used." and persists
count+1 via merge-write; in particular a fresh subject (both documents absent)
uses the defaults, is admitted, and gets count = 1 (the witness below). -/
theorem free_tier_request_admits_and_increments (u : String) (st : Store)
    (n : Int) (now : Nat) (hu : u ≠ "") (hpro : isProActive st = false)
    (hcount : effectiveCount st = some n) (hlt : n < 5) :
    checkSubscription (some u) st now noFaults =
      (⟨true, "Free tier usage: " ++ toString (n + 1) ++ "/5 analyses used."⟩,
       { st with usageDoc := some { st.usageDoc.getD ⟨none, none, none⟩ with
                                    count := some (n + 1), last_use := some now } }) := by
  rw [checkSubscription_some_ne _ _ _ _ hu, body_free_tier st n now hpro hcount hlt,
    freeTierUsageMsg_eq]

/-- Witness for C1: the fresh subject (no documents) is admitted with
"Free tier usage: 1/5 analyses used." and count = 1 is written. -/
theorem free_tier_request_admits_and_increments_witness :
    checkSubscription (some "u1") ⟨none, none⟩ 7 noFaults =
      (⟨true, "Free tier usage: 1/5 analyses used."⟩,
       ⟨none, some ⟨some 1, some 7, none⟩⟩) := by
  have h := free_tier_request_admits_and_increments "u1" ⟨none, none⟩ 0 7
    (by decide) (by decide) (by decide) (by decide)
  exact h.trans (by decide)

/-- C2: for every subject whose `SubscriptionStatus` has tier = pro and
status = active, `evaluate` admits with reason "Pro subscription active."
regardless of the `UsageCounter` count, and never writes to the usage
document (stated for any faults whose reads succeed: even a usage write that
would fail is never attempted). -/
theorem pro_active_always_admits (u : String) (st : Store) (now : Nat)
    (f : Faults) (hu : u ≠ "") (hr : f.readStatus = false)
    (hru : f.readUsage = false) (hpro : isProActive st = true) :
    checkSubscription (some u) st now f =
      (⟨true, "Pro subscription active."⟩, st) := by
  rw [checkSubscription_some_ne _ _ _ _ hu, body_pro _ st now f hr hru hpro]

/-- Witness for C2: an active pro subject with count 99 is admitted and the
store is unchanged, even though the usage write would fault if attempted. -/
theorem pro_active_always_admits_witness :
    checkSubscription (some "u1")
      ⟨some ⟨some "pro", some "active", none, none, none⟩, some ⟨some 99, none, none⟩⟩
      7 ⟨false, false, true⟩ =
      (⟨true, "Pro subscription active."⟩,
       ⟨some ⟨some "pro", some "active", none, none, none⟩, some ⟨some 99, none, none⟩⟩) :=
  pro_active_always_admits "u1"
    ⟨some ⟨some "pro", some "active", none, none, none⟩, some ⟨some 99, none, none⟩⟩
    7 ⟨false, false, true⟩ (by decide) rfl rfl (by decide)

/-- C3: for every subject whose `SubscriptionStatus` is not (pro, active) and
whose `UsageCounter` count is at least 5, `evaluate` denies with reason
"Free tier limit of 5 analyses exceeded. Please upgrade to Pro." and performs
no write: the store is unchanged. -/
theorem limit_reached_denies_unchanged (u : String) (st : Store) (n : Int)
    (now : Nat) (hu : u ≠ "") (hpro : isProActive st = false)
    (hcount : effectiveCount st = some n) (hge : 5 ≤ n) :
    checkSubscription (some u) st now noFaults =
      (⟨false, "Free tier limit of 5 analyses exceeded. Please upgrade to Pro."⟩, st) := by
  rw [checkSubscription_some_ne _ _ _ _ hu,
    body_limit expressUsageDefault st n now hpro hcount hge, limitExceededMsg_eq]

/-- Witness for C3: a free subject at count 6 is denied and the store is
unchanged. -/
theorem limit_reached_denies_unchanged_witness :
    checkSubscription (some "u1")
      ⟨some ⟨some "free", some "unknown", none, none, none⟩, some ⟨some 6, none, none⟩⟩
      7 noFaults =
      (⟨false, "Free tier limit of 5 analyses exceeded. Please upgrade to Pro."⟩,
       ⟨some ⟨some "free", some "unknown", none, none, none⟩, some ⟨some 6, none, none⟩⟩) :=
  limit_reached_denies_unchanged "u1"
    ⟨some ⟨some "free", some "unknown", none, none, none⟩, some ⟨some 6, none, none⟩⟩
    6 7 (by decide) (by decide) (by decide) (by decide)

/-- C4 counterexample: at count = 5, tier = free, `evaluate` denies but the
reason string does not contain the substring "5/5" (it is the limit-exceeded
message, which contains "of 5", not "5/5"). -/
theorem count_five_deny_reason_lacks_five_slash_five :
    (checkSubscription (some "u1")
        ⟨some ⟨some "free", some "unknown", none, none, none⟩, some ⟨some 5, none, none⟩⟩
        7 noFaults).1.canProceed = false
    ∧ strHasSub (checkSubscription (some "u1")
        ⟨some ⟨some "free", some "unknown", none, none, none⟩, some ⟨some 5, none, none⟩⟩
        7 noFaults).1.message "5/5" = false := by
  decide

/-- C4 (amended): for a subject with count = 5 and tier = free, `evaluate`
denies with the reason "Free tier limit of 5 analyses exceeded. Please upgrade
to Pro.", a string that does not contain the substring "5/5" (that substring
appears only in the admit message of the request that raises the count from 4
to 5). -/
theorem count_five_denies_limit_reason (u : String) (st : Store) (now : Nat)
    (hu : u ≠ "")
    (htier : (st.statusDoc.getD statusDefault).tier = some "free")
    (hcount : effectiveCount st = some 5) :
    checkSubscription (some u) st now noFaults =
      (⟨false, "Free tier limit of 5 analyses exceeded. Please upgrade to Pro."⟩, st)
    ∧ strHasSub "Free tier limit of 5 analyses exceeded. Please upgrade to Pro." "5/5"
        = false := by
  have hpro : isProActive st = false := by
    simp [isProActive, htier]
  exact ⟨by rw [checkSubscription_some_ne _ _ _ _ hu,
      body_limit expressUsageDefault st 5 now hpro hcount (le_refl _),
      limitExceededMsg_eq], by decide⟩

/-- Witness for the amended C4: a concrete free subject at count 5. -/
theorem count_five_denies_limit_reason_witness :
    checkSubscription (some "u1")
      ⟨some ⟨some "free", some "active", none, none, none⟩, some ⟨some 5, none, none⟩⟩
      7 noFaults =
      (⟨false, "Free tier limit of 5 analyses exceeded. Please upgrade to Pro."⟩,
       ⟨some ⟨some "free", some "active", none, none, none⟩, some ⟨some 5, none, none⟩⟩)
    ∧ strHasSub "Free tier limit of 5 analyses exceeded. Please upgrade to Pro." "5/5"
        = false :=
  count_five_denies_limit_reason "u1"
    ⟨some ⟨some "free", some "active", none, none, none⟩, some ⟨some 5, none, none⟩⟩
    7 (by decide) (by decide) (by decide)

/-- C5: whenever a quota-store read or write actually throws during
`evaluate` (the reads always run; the write only when the free-tier branch
attempts it), the Gate returns a deny with reason "Internal server error
during authorization check." and the store is unchanged — a storage fault
never yields an admit decision. -/
theorem storage_fault_denies (u : String) (st : Store) (now : Nat) (f : Faults)
    (hu : u ≠ "") (hf : faultRaised st f = true) :
    checkSubscription (some u) st now f =
      (⟨false, "Internal server error during authorization check."⟩, st) := by
  rw [checkSubscription_some_ne _ _ _ _ hu]
  cases hrs : f.readStatus with
  | true => simp [checkSubscriptionBody, hrs, internalErrorMsg]
  | false =>
  cases hru : f.readUsage with
  | true => simp [checkSubscriptionBody, hrs, hru, internalErrorMsg]
  | false =>
    have hwa : f.writeUsage = true ∧ writeAttempted st f = true := by
      simpa [faultRaised, hrs, hru] using hf
    obtain ⟨hwu, hatt⟩ := hwa
    have h1 : isProActive st = false ∧
        (match effectiveCount st with
         | some n => decide (n < FREE_TIER_LIMIT)
         | none => false) = true := by
      simpa [writeAttempted, hrs, hru] using hatt
    obtain ⟨hpro, hcnt⟩ := h1
    have hpro' : ¬((st.statusDoc.getD statusDefault).tier = some "pro"
        ∧ (st.statusDoc.getD statusDefault).status = some "active") := by
      simpa [isProActive] using hpro
    cases hc : effectiveCount st with
    | none => rw [hc] at hcnt; simp at hcnt
    | some n =>
      rw [hc] at hcnt
      have hn : n < FREE_TIER_LIMIT := by simpa using hcnt
      have hc' : (st.usageDoc.getD expressUsageDefault).count = some n := hc
      simp only [checkSubscriptionBody, hrs, hru, Bool.or_self, Bool.false_eq_true,
        if_false, hc', if_neg hpro', if_pos hn, hwu, if_true, internalErrorMsg]

/-- Witness for C5: a read fault on a fresh subject yields the internal-error
deny with nothing written. -/
theorem storage_fault_denies_witness :
    checkSubscription (some "u1") ⟨none, none⟩ 7 ⟨true, false, false⟩ =
      (⟨false, "Internal server error during authorization check."⟩,
       ⟨none, none⟩) :=
  storage_fault_denies "u1" ⟨none, none⟩ 7 ⟨true, false, false⟩ (by decide) (by decide)

/-- C10: if the usage document exists but has no numeric `count` field, a
non-active-pro subject is denied with the limit-exceeded reason and nothing is
written: the `{count: 0}` default applies only when the whole document is
absent, and an undefined count fails the `count < 5` comparison. -/
theorem usage_doc_without_count_denies (u : String) (st : Store)
    (ud : UsageDoc) (now : Nat) (hu : u ≠ "") (hdoc : st.usageDoc = some ud)
    (hcount : ud.count = none) (hpro : isProActive st = false) :
    checkSubscription (some u) st now noFaults =
      (⟨false, "Free tier limit of 5 analyses exceeded. Please upgrade to Pro."⟩, st) := by
  have hc : (st.usageDoc.getD expressUsageDefault).count = none := by
    rw [hdoc]; simpa using hcount
  rw [checkSubscription_some_ne _ _ _ _ hu,
    body_count_absent expressUsageDefault st now hpro hc, limitExceededMsg_eq]

/-- Witness for C10: a usage document with only `last_use` set denies and is
left unchanged. -/
theorem usage_doc_without_count_denies_witness :
    checkSubscription (some "u1") ⟨none, some ⟨none, some 3, none⟩⟩ 7 noFaults =
      (⟨false, "Free tier limit of 5 analyses exceeded. Please upgrade to Pro."⟩,
       ⟨none, some ⟨none, some 3, none⟩⟩) :=
  usage_doc_without_count_denies "u1" ⟨none, some ⟨none, some 3, none⟩⟩
    ⟨none, some 3, none⟩ 7 (by decide) rfl rfl (by decide)

/-- The usage-document default object differs between the two copies only in
the unread `last_reset` field, so the shared body behaves identically under
either default. -/
theorem body_default_irrel (st : Store) (now : Nat) (f : Faults) :
    checkSubscriptionBody expressUsageDefault st now f =
      checkSubscriptionBody gcfUsageDefault st now f := by
  rcases st with ⟨sd, ud⟩
  cases ud <;> rfl

/-- C6 counterexample: applying `BILLING.SUBSCRIPTION.CANCELLED` writes
`status = "billing.subscription.cancelled"` (the lowercased full event type),
not `status = "cancelled"`. -/
theorem cancelled_event_writes_full_event_string :
    ((lookupAssoc (paypalWebhookHandler "POST"
        ⟨some "BILLING.SUBSCRIPTION.CANCELLED",
         some ⟨some "P1", none, some ⟨some "u1"⟩⟩⟩
        [("u1", ⟨some "pro", some "active", some "P1", some 3, some 3⟩)]
        9 false).2 "u1").getD emptyStatusDoc).status
        = some "billing.subscription.cancelled"
    ∧ ((lookupAssoc (paypalWebhookHandler "POST"
        ⟨some "BILLING.SUBSCRIPTION.CANCELLED",
         some ⟨some "P1", none, some ⟨some "u1"⟩⟩⟩
        [("u1", ⟨some "pro", some "active", some "P1", some 3, some 3⟩)]
        9 false).2 "u1").getD emptyStatusDoc).status
        ≠ some "cancelled" := by
  decide

/-- C6 (amended): applying `BILLING.SUBSCRIPTION.CANCELLED` merge-writes
`{tier: free, status: "billing.subscription.cancelled"}` and
`BILLING.SUBSCRIPTION.EXPIRED` merge-writes
`{tier: free, status: "billing.subscription.expired"}` — the status is the
lowercased full event type, not the bare word — together with an updated
timestamp, leaving unspecified fields (e.g. `paypal_id`, `expires_at`)
untouched. -/
theorem cancel_or_expire_downgrades_merge (body : WebhookBody) (res : Resource)
    (db : StatusDB) (u : String) (now : Nat) (e : String)
    (hres : body.resource = some res) (hu : extractUserId (some res) = some u)
    (hev : body.event_type = some e)
    (he : e = "BILLING.SUBSCRIPTION.CANCELLED"
        ∨ e = "BILLING.SUBSCRIPTION.EXPIRED") :
    paypalWebhookHandler "POST" body db now false =
      (.noContent, setAssoc db u
        { (lookupAssoc db u).getD emptyStatusDoc with
          tier := some "free",
          status := some (if e = "BILLING.SUBSCRIPTION.CANCELLED"
                          then "billing.subscription.cancelled"
                          else "billing.subscription.expired"),
          updated_at := some now }) := by
  rcases he with h | h <;> subst h <;>
    simp [paypalWebhookHandler, hev, hres, hu, truthyStr] <;> rfl

/-- Witness for the amended C6: cancelling u1's pro subscription leaves the
stored `paypal_id` and `expires_at` untouched and sets the lowercased event
type as the status. -/
theorem cancel_or_expire_downgrades_merge_witness :
    paypalWebhookHandler "POST"
      ⟨some "BILLING.SUBSCRIPTION.CANCELLED",
       some ⟨some "P1", none, some ⟨some "u1"⟩⟩⟩
      [("u1", ⟨some "pro", some "active", some "P1", some 3, some 3⟩)]
      9 false =
      (.noContent,
       [("u1", ⟨some "free", some "billing.subscription.cancelled",
                some "P1", some 3, some 9⟩)]) := by
  have h := cancel_or_expire_downgrades_merge
    ⟨some "BILLING.SUBSCRIPTION.CANCELLED", some ⟨some "P1", none, some ⟨some "u1"⟩⟩⟩
    ⟨some "P1", none, some ⟨some "u1"⟩⟩
    [("u1", ⟨some "pro", some "active", some "P1", some 3, some 3⟩)]
    "u1" 9 "BILLING.SUBSCRIPTION.CANCELLED" rfl (by decide) rfl (Or.inl rfl)
  exact h.trans (by decide)

/-- C7: applying `BILLING.SUBSCRIPTION.ACTIVATED` with an extractable subject
id and a present `resource.id` merge-writes `{tier: pro, status: active}`
together with the provider subscription id (stored as `paypal_id`) and
refresh timestamps to that subject's status document. -/
theorem activated_upgrades_to_pro (body : WebhookBody) (res : Resource)
    (db : StatusDB) (u pid : String) (now : Nat)
    (hres : body.resource = some res) (hu : extractUserId (some res) = some u)
    (hev : body.event_type = some "BILLING.SUBSCRIPTION.ACTIVATED")
    (hid : res.id = some pid) :
    paypalWebhookHandler "POST" body db now false =
      (.noContent, setAssoc db u
        { (lookupAssoc db u).getD emptyStatusDoc with
          tier := some "pro", status := some "active", paypal_id := some pid,
          expires_at := some now, updated_at := some now }) := by
  simp [paypalWebhookHandler, hev, hres, hu, hid, truthyStr]

/-- Witness for C7: the spec's scenario
`{event_type: "BILLING.SUBSCRIPTION.ACTIVATED", resource: {id: "P1",
subscriber: {custom_id: "u1"}}}` upgrades u1 to pro/active with
`paypal_id = "P1"`. -/
theorem activated_upgrades_to_pro_witness :
    paypalWebhookHandler "POST"
      ⟨some "BILLING.SUBSCRIPTION.ACTIVATED",
       some ⟨some "P1", none, some ⟨some "u1"⟩⟩⟩
      [] 9 false =
      (.noContent,
       [("u1", ⟨some "pro", some "active", some "P1", some 9, some 9⟩)]) := by
  have h := activated_upgrades_to_pro
    ⟨some "BILLING.SUBSCRIPTION.ACTIVATED", some ⟨some "P1", none, some ⟨some "u1"⟩⟩⟩
    ⟨some "P1", none, some ⟨some "u1"⟩⟩ [] "u1" "P1" 9 rfl (by decide) rfl rfl
  exact h.trans (by decide)

/-- C8: an admitted free-tier request whose AI call fails still answers the
500 failure and leaves the usage counter at the incremented value — quota is
spent on attempt, not on success, and nothing on the failure path decrements
it. -/
theorem oracle_failure_keeps_spent_quota (u : String) (st : Store) (n : Int)
    (now : Nat) (hu : u ≠ "") (hpro : isProActive st = false)
    (hcount : effectiveCount st = some n) (hlt : n < 5) :
    runAnalysis true true (some u) st now noFaults none =
      (.serverError,
       { st with usageDoc := some { st.usageDoc.getD ⟨none, none, none⟩ with
                                    count := some (n + 1), last_use := some now } })
    ∧ effectiveCount (runAnalysis true true (some u) st now noFaults none).2
        = some (n + 1) := by
  have hcs : checkSubscription (some u) st now noFaults =
      (⟨true, freeTierUsageMsg (n + 1)⟩,
       { st with usageDoc := some { st.usageDoc.getD ⟨none, none, none⟩ with
                                    count := some (n + 1), last_use := some now } }) := by
    rw [checkSubscription_some_ne _ _ _ _ hu]
    exact body_free_tier st n now hpro hcount hlt
  refine ⟨?_, ?_⟩ <;> simp [runAnalysis, hcs, effectiveCount]

/-- Witness for C8: a fresh subject is admitted, the Oracle fails, the
response is the 500 failure and the counter stays at 1. -/
theorem oracle_failure_keeps_spent_quota_witness :
    runAnalysis true true (some "u1") ⟨none, none⟩ 7 noFaults none =
      (.serverError, ⟨none, some ⟨some 1, some 7, none⟩⟩)
    ∧ effectiveCount (runAnalysis true true (some "u1") ⟨none, none⟩ 7 noFaults none).2
        = some 1 := by
  have h := oracle_failure_keeps_spent_quota "u1" ⟨none, none⟩ 0 7
    (by decide) (by decide) (by decide) (by decide)
  exact ⟨h.1.trans (by decide), h.2.trans (by decide)⟩

/-- C9 counterexample: on an absent user id over the empty store, the Express
copy denies with "User ID is required for authorization." while the GCF copy
(which has no guard) evaluates the policy for the path segment "undefined",
admits, and writes a usage count — the two copies are not extensionally
equal. -/
theorem server_gcf_differ_absent_user :
    checkSubscription_server none [] 0 noFaults
      ≠ checkSubscription_gcf none [] 0 noFaults := by
  decide

/-- C9 (amended): the two `checkSubscription` copies agree — same decision
and same store writes — for every present, non-empty subject id, every store
state and every fault pattern; only the absent/empty subject id separates
them, because the "User ID is required for authorization." guard exists only
in the Express copy. -/
theorem server_gcf_agree_on_present_id (s : String) (db : GateDB) (now : Nat)
    (f : Faults) (hs : s ≠ "") :
    checkSubscription_server (some s) db now f
      = checkSubscription_gcf (some s) db now f := by
  have h2 : ¬(some s = (some "" : Option String)) := by simpa using hs
  simp [checkSubscription_server, checkSubscription_gcf, userIdFalsy, hs, h2,
    body_default_irrel]

/-- Witness for the amended C9: both copies act identically for user "u1" on
the empty store. -/
theorem server_gcf_agree_on_present_id_witness :
    checkSubscription_server (some "u1") [] 0 noFaults
      = checkSubscription_gcf (some "u1") [] 0 noFaults :=
  server_gcf_agree_on_present_id "u1" [] 0 noFaults (by decide)

end EcoPredict
